import Mathlib

/-!
# Verification of the IXOM-POC comparison & decision engine

Shallow embedding of the repository's core comparison code:

* `src/core/unit_normalizer.py` — value parsing, unit normalization,
  unit compatibility and conversion, parameter-name normalization;
* `src/core/comparator.py` — product-identity pre-check, legacy
  (deterministic) parameter matching, per-parameter classification, and
  the `compare_documents` decision pipeline.

Modelling conventions:

* Python `str` is Lean `String`; the ASCII-relevant parts of `strip`,
  `lower`, `upper` and of the regular expressions used by the source are
  implemented directly on `List Char`.
* Python floats are modelled as `ℚ` (the numeric literals occurring in
  the source and in the comparisons are exact decimals).
* Fallible code is `Option`-valued: `none` models a Python exception
  escaping the function (e.g. `float("")` raising `ValueError`).
* The external OpenAI aligner call in `_ai_compare` is an external
  collaborator; its parsed response (or the fact that the call raised) is
  passed to `compare_documents` as an explicit `Option AIResult` input.
-/

set_option autoImplicit false

/- `Rat.add`/`Rat.mul`/`Rat.inv`/`Rat.ofScientific` are `[irreducible]` in
Batteries, which blocks `decide` on concrete rational computations; the
kernel itself reduces them fine, so we restore `[semireducible]` locally. -/
set_option allowUnsafeReducibility true
attribute [local semireducible] Rat.add Rat.mul Rat.inv Rat.ofScientific

namespace IXOM

/-! ## Python string primitives -/

/-- Python `\s` / `str.strip` whitespace class (ASCII part). -/
def isPySpace (c : Char) : Bool :=
  c == ' ' || c == '\t' || c == '\n' || c == '\r' || c == '\x0b' || c == '\x0c'

/-- ASCII `str.lower` on one character. -/
def lowerChar (c : Char) : Char :=
  if decide ('A' ≤ c) && decide (c ≤ 'Z') then Char.ofNat (c.toNat + 32) else c

/-- ASCII `str.upper` on one character. -/
def upperChar (c : Char) : Char :=
  if decide ('a' ≤ c) && decide (c ≤ 'z') then Char.ofNat (c.toNat - 32) else c

/-- Python `str.strip()`. -/
def pyStrip (s : String) : String :=
  ⟨((s.data.dropWhile isPySpace).reverse.dropWhile isPySpace).reverse⟩

/-- Python `str.lower()` (ASCII). -/
def pyLower (s : String) : String := ⟨s.data.map lowerChar⟩

/-- Python `str.upper()` (ASCII). -/
def pyUpper (s : String) : String := ⟨s.data.map upperChar⟩

/-- Python `", ".join(...)`. -/
def strJoin (sep : String) : List String → String
  | [] => ""
  | [x] => x
  | x :: xs => x ++ sep ++ strJoin sep xs

/-- `a.startswith(b)` for Python strings. -/
def strStartsWith (s pre : String) : Bool := pre.data.isPrefixOf s.data

/-! ## Numbers: the source's `float(...)` on matched regex groups -/

def digitsToNat (ds : List Char) : Nat :=
  ds.foldl (fun a c => 10 * a + (c.toNat - 48)) 0

/-- Python `float` applied to a comma-stripped group matched by
`[\d,]+\.?\d*` (so: digits, at most one dot). Returns `none` when the
group contains no digit at all, where CPython raises `ValueError`. -/
def pyFloat (cs : List Char) : Option ℚ :=
  let ip := cs.takeWhile (fun c => c != '.')
  let fp := (cs.dropWhile (fun c => c != '.')).drop 1
  if cs.any Char.isDigit then
    some ((digitsToNat ip : ℚ) + (digitsToNat fp : ℚ) / ((10 : ℚ) ^ fp.length))
  else none

/-- Leading match of the regex `[\d,]+\.?\d*`: the matched group, or
`none` when the regex does not match at the start of the input. -/
def matchNumberChars (cs : List Char) : Option (List Char) :=
  let p1 := cs.takeWhile (fun c => c.isDigit || c == ',')
  let r1 := cs.dropWhile (fun c => c.isDigit || c == ',')
  if p1.isEmpty then none
  else
    match r1 with
    | '.' :: r2 => some (p1 ++ '.' :: r2.takeWhile Char.isDigit)
    | _ => some p1

/-- Leading match of `[q...]\s*([\d,]+\.?\d*)` for a qualifier character
class `qchars`; returns the number group. -/
def matchQualifiedNumber (qchars : List Char) (cs : List Char) : Option (List Char) :=
  match cs with
  | [] => none
  | c :: rest =>
    if qchars.contains c then matchNumberChars (rest.dropWhile isPySpace)
    else none

def stripCommas (cs : List Char) : List Char := cs.filter (fun c => c != ',')

/-! ## `unit_normalizer.parse_value` -/

def ND_STRINGS : List String := ["ND", "N.D.", "BDL", "NOT DETECTED", "BELOW DETECTION LIMIT"]

def NA_STRINGS : List String := ["N/A", "NA", "-", "—", ""]

/-- `unit_normalizer.parse_value`. Result `none` models an uncaught
`ValueError` from `float(...)` (possible when the matched numeric group
consists only of commas). Otherwise `some (value?, qualifier)`. -/
def parse_value (value_str : String) : Option (Option ℚ × String) :=
  if value_str = "" then some (none, "empty")
  else
    let s := pyStrip value_str
    if pyUpper s ∈ ND_STRINGS then some (some 0, "not_detected")
    else if pyUpper s ∈ NA_STRINGS then some (none, "not_applicable")
    else if ¬ s.data.any Char.isDigit then some (none, "qualitative")
    else
      match matchQualifiedNumber ['<', '≤'] s.data with
      | some g => (pyFloat (stripCommas g)).map (fun v => (some v, "less_than"))
      | none =>
        match matchQualifiedNumber ['>', '≥'] s.data with
        | some g => (pyFloat (stripCommas g)).map (fun v => (some v, "greater_than"))
        | none =>
          match matchQualifiedNumber ['~', '≈'] s.data with
          | some g => (pyFloat (stripCommas g)).map (fun v => (some v, "approximately"))
          | none =>
            match matchNumberChars s.data with
            | some g => (pyFloat (stripCommas g)).map (fun v => (some v, ""))
            | none => some (none, "unparseable")

/-! ## Unit normalization, compatibility, conversion -/

def UNIT_MAP : List (String × String) := [
  ("%", "%"),
  ("% w/w", "%"),
  ("% w/v", "% w/v"),
  ("%w/w", "%"),
  ("%w/v", "% w/v"),
  ("percent", "%"),
  ("wt%", "%"),
  ("wt %", "%"),
  ("weight %", "%"),
  ("weight percent", "%"),
  ("vol%", "% v/v"),
  ("vol %", "% v/v"),
  ("% v/v", "% v/v"),
  ("ppm", "ppm"),
  ("mg/l", "ppm"),
  ("mg/kg", "ppm"),
  ("µg/ml", "ppm"),
  ("ug/ml", "ppm"),
  ("ppb", "ppb"),
  ("µg/l", "ppb"),
  ("ug/l", "ppb"),
  ("µg/kg", "ppb"),
  ("g/l", "g/L"),
  ("g/ml", "g/mL"),
  ("mg/ml", "mg/mL"),
  ("ph", "pH"),
  ("ph units", "pH"),
  ("g/cm3", "g/cm³"),
  ("g/cm³", "g/cm³"),
  ("g/cc", "g/cm³"),
  ("kg/l", "kg/L"),
  ("kg/m3", "kg/m³"),
  ("kg/m³", "kg/m³"),
  ("sg", "SG"),
  ("specific gravity", "SG"),
  ("°c", "°C"),
  ("degc", "°C"),
  ("deg c", "°C"),
  ("celsius", "°C"),
  ("°f", "°F"),
  ("ntu", "NTU"),
  ("hazen", "Hazen"),
  ("apha", "APHA"),
  ("meq/l", "meq/L"),
  ("ml", "mL"),
  ("l", "L"),
  ("mg", "mg"),
  ("g", "g"),
  ("kg", "kg")]

def lookupUnit (k : String) : Option String :=
  (UNIT_MAP.find? (fun p => p.1 == k)).map (fun p => p.2)

/-- `unit_normalizer.normalize_unit`. -/
def normalize_unit (unit : String) : String :=
  if unit = "" then ""
  else
    let cleaned := pyLower (pyStrip unit)
    match lookupUnit cleaned with
    | some c => c
    | none => pyStrip unit

def CONVERSION_FACTORS : List ((String × String) × ℚ) := [
  (("mg/L", "ppm"), 1.0),
  (("ppm", "mg/L"), 1.0),
  (("mg/kg", "ppm"), 1.0),
  (("ppm", "mg/kg"), 1.0),
  (("µg/L", "ppb"), 1.0),
  (("ppb", "µg/L"), 1.0),
  (("g/L", "ppm"), 1000.0),
  (("ppm", "g/L"), 0.001),
  (("ppb", "ppm"), 0.001),
  (("ppm", "ppb"), 1000.0),
  (("g/cm³", "kg/L"), 1.0),
  (("kg/L", "g/cm³"), 1.0),
  (("mg/mL", "g/L"), 1.0),
  (("g/L", "mg/mL"), 1.0)]

/-- `(from, to) in CONVERSION_FACTORS` lookup. -/
def lookupFactor (a b : String) : Option ℚ :=
  (CONVERSION_FACTORS.find? (fun e => e.1.1 == a && e.1.2 == b)).map (fun e => e.2)

/-- `unit_normalizer.are_units_compatible`. -/
def are_units_compatible (unit1 unit2 : String) : Bool :=
  let n1 := normalize_unit unit1
  let n2 := normalize_unit unit2
  if n1 = n2 then true
  else (lookupFactor n1 n2).isSome || (lookupFactor n2 n1).isSome

/-- `unit_normalizer.convert_value`. -/
def convert_value (value : ℚ) (from_unit to_unit : String) : Option ℚ :=
  let n_from := normalize_unit from_unit
  let n_to := normalize_unit to_unit
  if n_from = n_to then some value
  else
    match lookupFactor n_from n_to with
    | some f => some (value * f)
    | none => none

/-! ## `unit_normalizer.normalize_param_name` -/

/-- Split on whitespace runs, dropping empty pieces (Python `str.split()`). -/
def splitWsAux : List Char → List Char → List (List Char)
  | [], acc => if acc.isEmpty then [] else [acc.reverse]
  | c :: rest, acc =>
    if isPySpace c then
      if acc.isEmpty then splitWsAux rest [] else acc.reverse :: splitWsAux rest []
    else splitWsAux rest (c :: acc)

def isLowerAlpha (c : Char) : Bool := decide ('a' ≤ c) && decide (c ≤ 'z')

/-- `unit_normalizer.normalize_param_name`: lower-case, drop characters
outside `[a-z0-9\s]`, collapse whitespace, strip. -/
def normalize_param_name (name : String) : String :=
  if name = "" then ""
  else
    let lowered := (pyLower (pyStrip name)).data
    let kept := lowered.filter (fun c => isLowerAlpha c || c.isDigit || isPySpace c)
    strJoin " " ((splitWsAux kept []).map String.mk)

/-! ## Product-identity pre-check (`comparator._check_product_match`) -/

/-- Maximal runs of characters satisfying `p` — the semantics of
`re.findall` for the character-class-plus patterns used by the source
(`[a-z]+`, `\d+`, and `[a-z]{3,}` after a length filter). -/
def runsAux (p : Char → Bool) : List Char → List Char → List (List Char)
  | [], acc => if acc.isEmpty then [] else [acc.reverse]
  | c :: cs, acc =>
    if p c then runsAux p cs (c :: acc)
    else if acc.isEmpty then runsAux p cs []
    else acc.reverse :: runsAux p cs []

def findRuns (p : Char → Bool) (s : String) : List String :=
  (runsAux p s.data []).map String.mk

/-- Noise words stripped by `_normalize_product_tokens`. -/
def PRODUCT_NOISE : List String := ["product", "specification", "spec", "premium", "grade", "prem",
  "grd", "ixom", "certificate", "analysis", "of", "the", "for",
  "in", "and", "a", "an", "rev", "revision", "approved", "by",
  "drums", "kg", "l", "ml", "ibc", "bulk", "non", "returnable",
  "flv10594", "flv"]

/-- `comparator._normalize_product_tokens`. Python sets are modelled as
duplicate-free lists (first occurrence kept), which preserves both
membership and cardinality. -/
def normalize_product_tokens (name : String) : List String :=
  if name = "" then []
  else
    let s := pyLower name
    let tokens := (findRuns isLowerAlpha s).dedup.filter (fun t => t ∉ PRODUCT_NOISE)
    let numbers := (findRuns Char.isDigit s).dedup
    (tokens ++ numbers).dedup

def CHEM_ALIASES : List (String × String) := [
  ("alum", "aluminium"),
  ("aluminum", "aluminium"),
  ("hypo", "hypochlorite"),
  ("caustic", "hydroxide"),
  ("soda", "sodium"),
  ("hcl", "hydrochloric"),
  ("naoh", "hydroxide"),
  ("ammonia", "ammonia"),
  ("aqueous", "aqua"),
  ("sulphate", "sulfate"),
  ("sulphuric", "sulfuric"),
  ("ferric", "iron"),
  ("pac", "aluminium"),
  ("naclo", "hypochlorite")]

/-- `_expand_tokens` inside `_check_product_match`: add forward alias
images and reverse alias preimages of every token. -/
def expand_tokens (tokens : List String) : List String :=
  (tokens ++ (tokens.map (fun t =>
    (match (CHEM_ALIASES.find? (fun p => p.1 == t)).map (fun p => p.2) with
     | some c => [c]
     | none => []) ++
    (CHEM_ALIASES.filter (fun p => p.2 == t)).map (fun p => p.1))).flatten).dedup

/-- First token pair (len ≥ 3 each) in prefix relation, as scanned by the
source's nested `for` loops. -/
def findPrefixPair (as bs : List String) : Option (String × String) :=
  as.findSome? (fun st => bs.findSome? (fun ct =>
    if st.length ≥ 3 ∧ ct.length ≥ 3 ∧ (strStartsWith st ct ∨ strStartsWith ct st)
    then some (st, ct) else none))

/-- Long-word noise set used by check 4 of `_check_product_match`. -/
def NOISE_LONG : List String := ["product", "specification", "premium", "grade", "certificate",
  "analysis", "approved", "ixom", "revision", "drums", "bulk",
  "non", "returnable", "liquid"]

/-- `comparator._check_product_match`: `(is_match, confidence, reason)`.
Reasons that interpolate a Python `set` display or depend on set
iteration order are rendered from our list order; no claim depends on
those reason texts. -/
def check_product_match (spec_product cert_product : String) : Bool × ℚ × String :=
  if spec_product = "" ∨ cert_product = "" then
    (true, 0.5, "Cannot verify — product name missing")
  else
    let spec_tokens := normalize_product_tokens spec_product
    let cert_tokens := normalize_product_tokens cert_product
    if spec_tokens = [] ∨ cert_tokens = [] then
      (true, 0.5, "Cannot verify — insufficient product info")
    else
      let spec_expanded := expand_tokens spec_tokens
      let cert_expanded := expand_tokens cert_tokens
      let direct_overlap := spec_expanded.filter (fun t => t ∈ cert_expanded)
      if direct_overlap ≠ [] then
        (true, 0.8, "Token match: " ++ strJoin ", " (direct_overlap.take 5))
      else
        match findPrefixPair spec_tokens cert_tokens with
        | some (st, ct) => (true, 0.7, "Substring match: '" ++ st ++ "' ~ '" ++ ct ++ "'")
        | none =>
          let spec_nums := (findRuns Char.isDigit spec_product).dedup
          let cert_nums := (findRuns Char.isDigit cert_product).dedup
          let num_overlap := spec_nums.filter (fun t => t ∈ cert_nums)
          let token_common := spec_tokens.filter (fun t => t ∈ cert_tokens)
          let total := (spec_tokens ++ cert_tokens).dedup
          let overlap_ratio : ℚ :=
            if total = [] then 0 else (token_common.length : ℚ) / (total.length : ℚ)
          if num_overlap ≠ [] ∧ overlap_ratio ≥ 0.1 then
            (true, 0.6, "Number overlap: " ++ strJoin ", " num_overlap)
          else
            let spec_words := (((findRuns isLowerAlpha (pyLower spec_product)).filter
                (fun w => w.length ≥ 3)).dedup).filter (fun w => w ∉ NOISE_LONG)
            let cert_words := (((findRuns isLowerAlpha (pyLower cert_product)).filter
                (fun w => w.length ≥ 3)).dedup).filter (fun w => w ∉ NOISE_LONG)
            let spec_words_exp := expand_tokens spec_words
            let cert_words_exp := expand_tokens cert_words
            let word_overlap := spec_words_exp.filter (fun t => t ∈ cert_words_exp)
            if word_overlap ≠ [] then
              (true, 0.7, "Expanded word match: " ++ strJoin ", " (word_overlap.take 5))
            else
              match findPrefixPair spec_words cert_words with
              | some (sw, cw) => (true, 0.6, "Word substring: '" ++ sw ++ "' ~ '" ++ cw ++ "'")
              | none =>
                if word_overlap = [] ∧ num_overlap = [] ∧ direct_overlap = [] then
                  (false, 0.1,
                    "PRODUCT MISMATCH: Specification is for '" ++ spec_product ++
                      "' but certificate is for '" ++ cert_product ++ "'")
                else (true, 0.4, "Uncertain match — AI will verify")

/-! ## Data model -/

/-- One extracted parameter (spec or cert side); fields default to the
empty string, as guaranteed by the extraction boundary. -/
structure Param where
  name : String := ""
  value : String := ""
  unit : String := ""
  min_limit : String := ""
  max_limit : String := ""
  deriving DecidableEq

/-- One per-spec-parameter comparison outcome (the dicts built by
`_compare_single_param`, `_match_parameters_legacy` and
`compare_documents`). `confidence = none` models an absent key. -/
structure Detail where
  parameter : String := ""
  cert_parameter : String := ""
  spec_value : String := ""
  spec_min : String := ""
  spec_max : String := ""
  spec_unit : String := ""
  cert_value : String := ""
  cert_unit : String := ""
  status : String := "PASS"
  confidence : Option ℚ := none
  reason : String := ""
  deriving DecidableEq

/-! ## Per-parameter classification (`comparator._compare_single_param`) -/

/-- Reason text used where the source catches `ValueError`/`TypeError`
(`f"Comparison error: {str(e)}"`); the CPython exception text is an
interpreter detail and is fixed here. -/
def comparisonErrorReason : String := "Comparison error: could not convert string to float"

/-- Unit reconciliation step of `_compare_single_param`: either an early
REVIEW detail (left) or the value to compare against the bounds (right). -/
def unitReconcile (base : Detail) (spec_unit cert_unit : String) (cert_val : ℚ) :
    Sum Detail ℚ :=
  if spec_unit ≠ "" ∧ cert_unit ≠ "" ∧ normalize_unit spec_unit ≠ normalize_unit cert_unit then
    if are_units_compatible spec_unit cert_unit then
      match convert_value cert_val cert_unit spec_unit with
      | some converted => Sum.inr converted
      | none =>
        Sum.inl { base with
            status := "REVIEW",
            reason := "Unit conversion failed: " ++ cert_unit ++ " → " ++ spec_unit }
    else
      Sum.inl { base with
          status := "REVIEW",
          reason := "Incompatible units: spec=" ++ spec_unit ++ ", cert=" ++ cert_unit }
  else Sum.inr cert_val

/-- Min-limit section of the `try` block; `some d` is an early return. -/
def minCheck (base : Detail) (spec_name spec_min_str : String) (actual_value : ℚ) :
    Option Detail :=
  if spec_min_str = "" then none
  else
    match parse_value spec_min_str with
    | none => some { base with status := "REVIEW", reason := comparisonErrorReason }
    | some (some min_val, _) =>
      if actual_value < min_val then
        some { base with
            status := "FAIL",
            reason := spec_name ++ ": " ++ toString actual_value ++ " below minimum " ++
            toString min_val }
      else none
    | some (none, _) => none

/-- Max-limit section of the `try` block. -/
def maxCheck (base : Detail) (spec_name spec_max_str : String) (actual_value : ℚ) :
    Option Detail :=
  if spec_max_str = "" then none
  else
    match parse_value spec_max_str with
    | none => some { base with status := "REVIEW", reason := comparisonErrorReason }
    | some (some max_val, _) =>
      if actual_value > max_val then
        some { base with
            status := "FAIL",
            reason := spec_name ++ ": " ++ toString actual_value ++ " exceeds maximum " ++
            toString max_val }
      else none
    | some (none, _) => none

/-- `less_than`-qualifier section of the `try` block. -/
def ltCheck (base : Detail) (spec_max_str cert_qualifier : String) (cert_val : ℚ) :
    Option Detail :=
  if cert_qualifier = "less_than" ∧ spec_max_str ≠ "" then
    match parse_value spec_max_str with
    | none => some { base with status := "REVIEW", reason := comparisonErrorReason }
    | some (some max_val, _) =>
      if cert_val ≤ max_val then
        some { base with
            status := "PASS",
            reason := "Value <" ++ toString cert_val ++ " within max limit " ++ toString max_val }
      else none
    | some (none, _) => none
  else none

/-- `comparator._compare_single_param`. `none` models an uncaught
exception (only possible from `parse_value` on the certificate value,
which sits outside the source's `try` block). -/
def compare_single_param (spec_param cert_param : Param) : Option Detail :=
  let spec_name := pyStrip spec_param.name
  let spec_unit := spec_param.unit
  let cert_unit := cert_param.unit
  let spec_min_str := spec_param.min_limit
  let spec_max_str := spec_param.max_limit
  let cert_value_str := cert_param.value
  let spec_value_str := spec_param.value
  let base : Detail :=
    { parameter := spec_name, spec_value := spec_value_str, spec_min := spec_min_str,
      spec_max := spec_max_str, spec_unit := spec_unit, cert_value := cert_value_str,
      cert_unit := cert_unit, status := "PASS", reason := "" }
  match parse_value cert_value_str with
  | none => none
  | some (cert_val, cert_qualifier) =>
    if cert_qualifier = "qualitative" then
      if spec_min_str ≠ "" ∨ spec_max_str ≠ "" then
        some { base with
            status := "REVIEW",
            reason := "Qualitative cert value '" ++ cert_value_str ++ "' vs numeric spec limits" }
      else
        let spec_val_norm := normalize_param_name spec_value_str
        let cert_val_norm := normalize_param_name cert_value_str
        if spec_val_norm ≠ "" ∧ cert_val_norm ≠ "" ∧ spec_val_norm ≠ cert_val_norm then
          some { base with
              status := "REVIEW",
              reason := "Qualitative mismatch: spec='" ++ spec_value_str ++ "' vs cert='" ++
              cert_value_str ++ "'" }
        else some base
    else if cert_qualifier = "not_detected" then
      if spec_max_str ≠ "" then
        some { base with status := "PASS", reason := "Not detected — within max limit" }
      else
        some { base with
            status := "REVIEW",
            reason := "Not detected — no spec limit to validate against" }
    else
      match cert_val with
      | none => some { base with
          status := "REVIEW",
          reason := "Cannot parse certificate value: '" ++ cert_value_str ++ "'" }
      | some cv =>
        if spec_min_str = "" ∧ spec_max_str = "" then
          some { base with
              status := "REVIEW",
              reason := "No numeric spec limits to compare against" }
        else
          match unitReconcile base spec_unit cert_unit cv with
          | Sum.inl d => some d
          | Sum.inr actual_value =>
            match minCheck base spec_name spec_min_str actual_value with
            | some d => some d
            | none =>
              match maxCheck base spec_name spec_max_str actual_value with
              | some d => some d
              | none =>
                match ltCheck base spec_max_str cert_qualifier cv with
                | some d => some d
                | none => some base

/-! ## Legacy name-based matching (`comparator._match_parameters_legacy`) -/

/-- Detail recorded for a spec parameter with no certificate counterpart
(the legacy path mislabels it REVIEW; `compare_documents` remaps it). -/
def missingDetail (spec_param : Param) (spec_name : String) : Detail :=
  { parameter := spec_name, spec_value := spec_param.value, spec_min := spec_param.min_limit,
    spec_max := spec_param.max_limit, cert_value := "", cert_unit := "",
    status := "REVIEW", reason := "Missing parameter in certificate: " ++ spec_name }

/-- Python-dict lookup built by repeated assignment: the LAST certificate
parameter with the given key wins. -/
def lastWithKey (key : String) (f : Param → String) (cert_params : List Param) : Option Param :=
  cert_params.reverse.find? (fun p => f p == key)

/-- `cert_by_name.get(spec_name) or cert_by_norm.get(spec_norm)`. -/
def certLookup (cert_params : List Param) (spec_name spec_norm : String) : Option Param :=
  match lastWithKey spec_name (fun p => pyStrip p.name) cert_params with
  | some p => some p
  | none => lastWithKey spec_norm (fun p => normalize_param_name p.name) cert_params

/-- `comparator._match_parameters_legacy`: one detail per specification
parameter, in specification order; `none` models an escaping exception. -/
def match_parameters_legacy : List Param → List Param → Option (List Detail)
  | [], _ => some []
  | spec_param :: rest, cert_params =>
    let spec_name := pyStrip spec_param.name
    let spec_norm := normalize_param_name spec_name
    let one : Option Detail :=
      match certLookup cert_params spec_name spec_norm with
      | none => some (missingDetail spec_param spec_name)
      | some cert_param => compare_single_param spec_param cert_param
    match one, match_parameters_legacy rest cert_params with
    | some d, some ds => some (d :: ds)
    | _, _ => none

/-! ## `compare_documents` inputs and result -/

/-- Extracted specification record (`spec_data` dict). -/
structure SpecData where
  product_name : String := ""
  material_number : String := ""
  parameters : List Param := []
  deriving DecidableEq

/-- Extracted certificate record (`cert_data` dict). -/
structure CertData where
  product_name : String := ""
  batch_number : String := ""
  parameters : List Param := []
  compliance_statement : String := ""
  deriving DecidableEq

/-- One entry of the external aligner's `parameters` list, with the
source's `.get(..., default)` defaults applied at the boundary. -/
structure AIParam where
  spec_parameter : String := ""
  cert_parameter : String := ""
  spec_min : String := ""
  spec_max : String := ""
  spec_value : String := ""
  spec_unit : String := ""
  cert_value : String := ""
  cert_unit : String := ""
  status : String := "REVIEW"
  confidence : ℚ := 0.8
  reason : String := ""
  deriving DecidableEq

/-- The parsed JSON response of `_ai_compare` (the external semantic
aligner). `product_match = none` models an absent key (the source tests
`ai_result.get("product_match") is False`). -/
structure AIResult where
  product_match : Option Bool := none
  product_match_reason : Option String := none
  compliance_statement : String := ""
  parameters : List AIParam := []
  deriving DecidableEq

/-- The result dict of `compare_documents`. Keys a given return statement
omits keep their defaults. -/
structure CompareResult where
  status : String := ""
  reason : String := ""
  cert_type : String := ""
  product_name : String := ""
  cert_product_name : String := ""
  batch_number : String := ""
  compliance_statement : String := ""
  product_mismatch : Bool := false
  document_type_valid : Bool := true
  total_params_in_spec : Nat := 0
  parameters_checked : Nat := 0
  parameters_passed : Nat := 0
  parameters_failed : Nat := 0
  parameters_missing : Nat := 0
  parameters_review : Nat := 0
  integrity_check : Bool := false
  comparison_skipped : Bool := false
  details : List Detail := []
  deriving DecidableEq

/-! ## Steps 4-6 of `compare_documents`: counts, integrity, verdict -/

/-- Python `sub in s` substring test. -/
def strContains (s sub : String) : Bool :=
  (List.range (s.data.length + 1)).any (fun i => sub.data.isPrefixOf (s.data.drop i))

/-- Step-4 count of details carrying a given status. -/
def countStatus (st : String) (details : List Detail) : Nat :=
  details.countP (fun d => d.status == st)

/-- Step 6 (decision logic): overall `(status, reason)` from the detail
list, with the FAIL > MISSING > REVIEW > PASS precedence of the source. -/
def overallVerdict (details : List Detail) : String × String :=
  let fail_count := countStatus "FAIL" details
  let missing_count := countStatus "MISSING" details
  let review_count := countStatus "REVIEW" details
  if 0 < fail_count then
    ("FAIL", Nat.repr fail_count ++ " parameter(s) failed: " ++
      strJoin ", " ((details.filter (fun d => d.status == "FAIL")).map (fun d => d.parameter)))
  else if 0 < missing_count then
    ("REVIEW", "All tested parameters passed but " ++ Nat.repr missing_count ++
      " parameter(s) missing from certificate: " ++
      strJoin ", " ((details.filter (fun d => d.status == "MISSING")).map (fun d => d.parameter)))
  else if 0 < review_count then
    ("REVIEW", "No failures but " ++ Nat.repr review_count ++
      " parameter(s) need human review: " ++
      strJoin ", " ((details.filter (fun d => d.status == "REVIEW")).map (fun d => d.parameter)))
  else ("PASS", "All parameters accounted for and within specification")

/-- `a or b` on Python strings (empty string is falsy). -/
def pyOrS (a b : String) : String := if a = "" then b else a

/-- Steps 4-6 plus result assembly (lines 741-815 of `comparator.py`):
local counts, integrity check, verdict, integrity warning, final dict. -/
def finalizeResult (details : List Detail) (total_params_in_spec : Nat)
    (cert_type spec_product cert_product batch_number ai_compliance : String) : CompareResult :=
  let pass_count := countStatus "PASS" details
  let fail_count := countStatus "FAIL" details
  let missing_count := countStatus "MISSING" details
  let review_count := countStatus "REVIEW" details
  let total_checked := pass_count + fail_count + missing_count + review_count
  let integrity_ok : Bool := total_checked == total_params_in_spec
  let v := overallVerdict details
  let overall_reason :=
    if integrity_ok then v.2
    else (v.2 ++ " [") ++ ("INTEGRITY WARNING" ++ (": Checked " ++ Nat.repr total_checked ++
      " parameters but spec has " ++ Nat.repr total_params_in_spec ++ "]"))
  { status := v.1,
    reason := overall_reason,
    cert_type := cert_type,
    product_name := pyOrS spec_product cert_product,
    cert_product_name := cert_product,
    batch_number := batch_number,
    document_type_valid := true,
    total_params_in_spec := total_params_in_spec,
    parameters_checked := total_checked,
    parameters_passed := pass_count,
    parameters_failed := fail_count,
    parameters_missing := missing_count,
    parameters_review := review_count,
    integrity_check := integrity_ok,
    compliance_statement :=
      if (cert_type = "COCA" ∨ cert_type = "COC") ∧ ai_compliance ≠ "" then ai_compliance else "",
    details := details }

/-- Detail built from one aligner entry (the AI path of step 3), with the
`NOT_IN_CERT → MISSING` remap and the valid-status coercion. -/
def detailOfAIParam (p : AIParam) : Detail :=
  let raw0 := p.status
  let raw1 := if raw0 = "NOT_IN_CERT" then "MISSING" else raw0
  let raw := if raw1 ∈ (["PASS", "FAIL", "REVIEW", "MISSING"] : List String) then raw1
             else "REVIEW"
  { parameter := p.spec_parameter, cert_parameter := p.cert_parameter,
    spec_value := p.spec_value, spec_min := p.spec_min, spec_max := p.spec_max,
    spec_unit := p.spec_unit, cert_value := p.cert_value, cert_unit := p.cert_unit,
    status := raw, confidence := some p.confidence, reason := p.reason }

/-- Post-processing of the legacy fallback details inside
`compare_documents`: remap legacy "Missing parameter" REVIEWs to MISSING
and default an absent confidence to 0.7. -/
def remapLegacyDetail (d : Detail) : Detail :=
  let d1 := if d.status = "REVIEW" ∧ strContains d.reason "Missing parameter" then
              { d with status := "MISSING" }
            else d
  if d1.confidence = none then { d1 with confidence := some 0.7 } else d1

def VALID_CERT_TYPES : List String := ["COA", "COCA", "COC", "PRODUCT_SPECIFICATION"]

/-- Condition of the step-1 document-type gate:
`if detected_type and detected_type not in valid_cert_types`. -/
def docTypeGateFails (classification : Option String) : Prop :=
  match classification with
  | none => False
  | some dt => pyUpper dt ≠ "" ∧ pyUpper dt ∉ VALID_CERT_TYPES

instance (classification : Option String) : Decidable (docTypeGateFails classification) := by
  unfold docTypeGateFails
  match classification with
  | none => exact inferInstanceAs (Decidable False)
  | some dt => exact inferInstanceAs (Decidable (_ ∧ _))

/-- Whether the AI path is taken: `if ai_result and ai_result.get("parameters")`. -/
def aiHasParams : Option AIResult → Bool
  | none => false
  | some r => !r.parameters.isEmpty

/-! ## `comparator.compare_documents` -/

/-- `comparator.compare_documents`. `classification` carries the optional
classifier's `document_type`; `ai_result` is the external aligner's
parsed response (`none` = the call raised and was caught, falling back to
the legacy path). Result `none` models an uncaught exception escaping
`compare_documents` (possible only through `parse_value`). -/
def compare_documents (spec_data : SpecData) (cert_data : CertData) (cert_type : String)
    (classification : Option String) (ai_result : Option AIResult) : Option CompareResult :=
  let detected_type := match classification with | none => "" | some dt => pyUpper dt
  -- STEP 1: document type validation
  if docTypeGateFails classification then
    some { status := "FAIL",
           reason := "Invalid document type: '" ++ detected_type ++
             "' — expected a certificate (COA/COCA/COC)",
           cert_type := cert_type,
           product_name := spec_data.product_name,
           batch_number := cert_data.batch_number,
           document_type_valid := false,
           total_params_in_spec := spec_data.parameters.length,
           integrity_check := false,
           comparison_skipped := true,
           details := [] }
  else
    -- STEP 2: product mismatch pre-check
    let spec_product := spec_data.product_name
    let cert_product := cert_data.product_name
    let pm := check_product_match spec_product cert_product
    let total_params_in_spec := spec_data.parameters.length
    if pm.1 = false then
      some { status := "FAIL",
             reason := pm.2.2,
             cert_type := cert_type,
             product_name := spec_product,
             cert_product_name := cert_product,
             batch_number := cert_data.batch_number,
             product_mismatch := true,
             document_type_valid := true,
             total_params_in_spec := total_params_in_spec,
             integrity_check := false,
             comparison_skipped := true,
             details := [] }
    else
      let spec_params := spec_data.parameters
      let cert_params := cert_data.parameters
      let compliance := cert_data.compliance_statement
      if spec_params = [] then
        some { status := "FAIL",
               reason := "INVALID SPECIFICATION: No parameters found in the specification document. Cannot validate certificate without a valid specification.",
               cert_type := cert_type,
               product_name := spec_product,
               batch_number := cert_data.batch_number,
               document_type_valid := true,
               total_params_in_spec := 0,
               integrity_check := false,
               comparison_skipped := true,
               details := [] }
      else if (cert_type = "COCA" ∨ cert_type = "COC") ∧ cert_params = [] then
        if compliance ≠ "" then
          some { status := "REVIEW",
                 reason := "Compliance statement present but no test data to compare parameter-by-parameter: " ++
                   String.mk (compliance.data.take 150),
                 cert_type := cert_type,
                 product_name := pyOrS cert_product spec_product,
                 batch_number := cert_data.batch_number,
                 compliance_statement := compliance,
                 document_type_valid := true,
                 total_params_in_spec := total_params_in_spec,
                 parameters_checked := total_params_in_spec,
                 parameters_missing := total_params_in_spec,
                 integrity_check := true,
                 details := spec_params.map (fun p =>
                   { parameter := p.name,
                     cert_parameter := "",
                     spec_value := p.value,
                     spec_min := p.min_limit,
                     spec_max := p.max_limit,
                     spec_unit := p.unit,
                     cert_value := "",
                     cert_unit := "",
                     status := "MISSING",
                     confidence := some 0.9,
                     reason := "No test data in certificate — only compliance statement present" }) }
        else
          some { status := "REVIEW",
                 reason := "No compliance statement and no test data found in certificate",
                 cert_type := cert_type,
                 product_name := pyOrS cert_product spec_product,
                 batch_number := cert_data.batch_number,
                 document_type_valid := true,
                 total_params_in_spec := total_params_in_spec,
                 parameters_review := 1,
                 integrity_check := false,
                 details := [] }
      else if cert_type = "COA" ∧ cert_params = [] then
        some { status := "REVIEW",
               reason := "No parameters found in certificate",
               cert_type := cert_type,
               product_name := pyOrS cert_product spec_product,
               batch_number := cert_data.batch_number,
               document_type_valid := true,
               total_params_in_spec := total_params_in_spec,
               parameters_review := 1,
               integrity_check := false,
               details := [] }
      else
        -- STEP 3: aligner result or legacy fallback, then steps 4-6
        let fallback : Option CompareResult :=
          match match_parameters_legacy spec_params cert_params with
          | none => none
          | some ds =>
            some (finalizeResult (ds.map remapLegacyDetail) total_params_in_spec cert_type
              spec_product cert_product cert_data.batch_number compliance)
        match ai_result with
        | none => fallback
        | some r =>
          if r.parameters.isEmpty then fallback
          else if r.product_match = some false then
            some { status := "FAIL",
                   reason := r.product_match_reason.getD
                     ("Product mismatch: spec='" ++ spec_product ++ "' vs cert='" ++
                       cert_product ++ "'"),
                   cert_type := cert_type,
                   product_name := spec_product,
                   cert_product_name := cert_product,
                   batch_number := cert_data.batch_number,
                   product_mismatch := true,
                   document_type_valid := true,
                   total_params_in_spec := total_params_in_spec,
                   integrity_check := false,
                   comparison_skipped := true,
                   details := [] }
          else
            some (finalizeResult (r.parameters.map detailOfAIParam) total_params_in_spec
              cert_type spec_product cert_product cert_data.batch_number
              (pyOrS r.compliance_statement compliance))

/-! ### Sanity checks against the source's own examples -/

example : parse_value "<0.5" = some (some (1/2), "less_than") := by decide
example : parse_value "99.8" = some (some (499/5), "") := by decide
example : parse_value "ND" = some (some 0, "not_detected") := by decide
example : parse_value "Conforms" = some (none, "qualitative") := by decide
example : parse_value "~3.0" = some (some 3, "approximately") := by decide
example : parse_value ">10" = some (some 10, "greater_than") := by decide
example : parse_value "N/A" = some (none, "not_applicable") := by decide
example : parse_value "1,250" = some (some 1250, "") := by decide
example : normalize_unit "% w/w" = "%" := by decide
example : normalize_unit "mg/L" = "ppm" := by decide
example : normalize_unit "NTU" = "NTU" := by decide
example : normalize_param_name "  Specific Gravity (20/4)  " = "specific gravity 204" := by decide
example : convert_value 6200 "mg/L" "ppm" = some 6200 := by decide
example : are_units_compatible "g/L" "ppm" = true := by decide

example :
    (compare_single_param { name := "pH", min_limit := "7.0", max_limit := "8.0" }
      { name := "pH", value := "7.5" }).map Detail.status = some "PASS" := by decide

example :
    (compare_single_param { name := "Lead", max_limit := "5", unit := "ppm" }
      { name := "Lead", value := "6200", unit := "mg/L" }).map Detail.status = some "FAIL" := by
  decide

example :
    (compare_single_param { name := "Appearance", value := "Clear liquid" }
      { name := "Appearance", value := "Conforms" }).map Detail.status = some "REVIEW" := by
  decide

example :
    (compare_single_param { name := "Arsenic", max_limit := "10" }
      { name := "Arsenic", value := "ND" }).map Detail.status = some "PASS" := by decide

example :
    (check_product_match "Acetic Acid 20% Premium Grade"
      "ACETIC ACID 20% FLV10594 PREMIUM GRD 15L").1 = true := by decide

example :
    (check_product_match "Acetic Acid 20%" "Zinc Gluconate Powder FG").1 = false := by decide

example :
    (compare_documents { product_name := "P", parameters := [{ name := "a" }, { name := "b" },
        { name := "c" }, { name := "d" }, { name := "e" }] }
      { product_name := "P", compliance_statement := "Complies with the specification" }
      "COC" none none).map CompareResult.status = some "REVIEW" := by decide

example :
    (overallVerdict [{ parameter := "x", status := "FAIL" }, { parameter := "y", status := "PASS" }]).2 =
      "1 parameter(s) failed: x" := by decide

/-! ## Claim theorems -/

/-- Helper: positivity of a status count is existence of a detail with
that status. -/
theorem countStatus_pos (st : String) (details : List Detail) :
    0 < countStatus st details ↔ ∃ d ∈ details, d.status = st := by
  unfold countStatus
  rw [List.countP_pos_iff]
  simp

/-- C10: unit compatibility is symmetric — both directions of the
conversion-factor table are consulted, and canonical-form equality is
symmetric. -/
theorem claim_C10 (u1 u2 : String) :
    are_units_compatible u1 u2 = are_units_compatible u2 u1 := by
  unfold are_units_compatible
  by_cases h : normalize_unit u1 = normalize_unit u2
  · simp [h]
  · have h' : normalize_unit u2 ≠ normalize_unit u1 := fun e => h e.symm
    simp [h, h', Bool.or_comm]

theorem claim_C10_witness :
    are_units_compatible "ppm" "mg/L" = are_units_compatible "mg/L" "ppm" :=
  claim_C10 "ppm" "mg/L"

/-- C7 counterexample: the conversion-factor table has no entry for the
normalized pair ("NTU", "NTU"), yet `convert_value` returns the value
unchanged (the `n_from == n_to` short-circuit), not `None` as claimed. -/
theorem claim_C7_counterexample :
    lookupFactor (normalize_unit "NTU") (normalize_unit "NTU") = none ∧
    convert_value 5 "NTU" "NTU" = some 5 := by decide

/-- C7 (amended): `convert_value` returns `none` when no factor entry
exists for the normalized pair AND the canonical forms differ; when the
canonical forms are equal it returns the value unchanged regardless of
the table. -/
theorem claim_C7 (A B : String) (v : ℚ) :
    (normalize_unit A ≠ normalize_unit B →
      lookupFactor (normalize_unit A) (normalize_unit B) = none →
      convert_value v A B = none) ∧
    (normalize_unit A = normalize_unit B → convert_value v A B = some v) := by
  constructor
  · intro hne hfac
    unfold convert_value
    simp [hne, hfac]
  · intro heq
    unfold convert_value
    simp [heq]

theorem claim_C7_witness :
    convert_value 5 "NTU" "APHA" = none ∧ convert_value 3 "mg/L" "ppm" = some 3 :=
  ⟨(claim_C7 "NTU" "APHA" 5).1 (by decide) (by decide),
   (claim_C7 "mg/L" "ppm" 3).2 (by decide)⟩

/-- C6 counterexample: `parse_value ""` returns qualifier `"empty"` (the
`if not value_str` guard fires before the not-applicable set is
consulted), not `"not_applicable"` as claimed. -/
theorem claim_C6_counterexample :
    parse_value "" = some (none, "empty") ∧
    some ((none : Option ℚ), "empty") ≠ some ((none : Option ℚ), "not_applicable") := by
  decide

/-- C6 (amended): every NON-empty input that is whitespace-only or one of
"N/A"/"NA"/"-"/"—" (case-insensitive) parses to `(None, not_applicable)`;
the empty string instead parses to `(None, "empty")`. -/
theorem claim_C6 :
    (∀ s : String, s ≠ "" → pyUpper (pyStrip s) ∈ NA_STRINGS →
      parse_value s = some (none, "not_applicable")) ∧
    parse_value "" = some (none, "empty") := by
  constructor
  · intro s hs h
    have disj : ∀ x ∈ NA_STRINGS, x ∉ ND_STRINGS := by decide
    have hnd : pyUpper (pyStrip s) ∉ ND_STRINGS := disj _ h
    unfold parse_value
    simp [hs, hnd, h]
  · decide

theorem claim_C6_witness :
    (" n/a " : String) ≠ "" ∧ parse_value " n/a " = some (none, "not_applicable") :=
  ⟨by decide, claim_C6.1 " n/a " (by decide) (by decide)⟩

/-- C4: values in the not-detected set parse to `(0.0, not_detected)`,
and a not-detected certificate value classifies as PASS exactly when the
specification carries a non-empty max limit (with the source's reason
text), REVIEW otherwise. -/
theorem claim_C4 :
    (∀ s : String, pyUpper (pyStrip s) ∈ ND_STRINGS →
      parse_value s = some (some 0, "not_detected")) ∧
    (∀ spec_param cert_param : Param,
      (parse_value cert_param.value).map Prod.snd = some "not_detected" →
      ∃ d, compare_single_param spec_param cert_param = some d ∧
        d.status = (if spec_param.max_limit ≠ "" then "PASS" else "REVIEW") ∧
        (spec_param.max_limit ≠ "" → d.reason = "Not detected — within max limit")) := by
  constructor
  · intro s h
    have hs : s ≠ "" := by
      intro e
      rw [e] at h
      revert h
      decide
    unfold parse_value
    simp [hs, h]
  · intro spec_param cert_param h
    rcases e : parse_value cert_param.value with _ | ⟨cv, q⟩
    · rw [e] at h
      exact absurd h (by simp)
    · rw [e] at h
      have hq : q = "not_detected" := by simpa using h
      subst hq
      simp only [compare_single_param, e]
      simp only [String.reduceEq, reduceIte]
      by_cases hmax : spec_param.max_limit ≠ ""
      · rw [if_pos hmax, if_pos hmax]
        exact ⟨_, rfl, rfl, fun _ => rfl⟩
      · rw [if_neg hmax, if_neg hmax]
        exact ⟨_, rfl, rfl, fun hc => absurd hc hmax⟩

theorem claim_C4_witness :
    parse_value "nd" = some (some 0, "not_detected") ∧
    (∃ d, compare_single_param { name := "Lead", max_limit := "10" }
        { name := "Lead", value := "ND" } = some d ∧
      d.status = (if (({ name := "Lead", max_limit := "10" } : Param)).max_limit ≠ ""
                  then "PASS" else "REVIEW") ∧
      ((({ name := "Lead", max_limit := "10" } : Param)).max_limit ≠ "" →
        d.reason = "Not detected — within max limit")) :=
  ⟨claim_C4.1 "nd" (by decide),
   claim_C4.2 { name := "Lead", max_limit := "10" } { name := "Lead", value := "ND" } (by decide)⟩

/-- C5: the product-identity checker accepts the two differing renderings
of Acetic Acid 20% (token overlap), and rejects Acetic Acid vs Zinc
Gluconate with confidence 0.1 and a reason naming both products. -/
theorem claim_C5 :
    (check_product_match "Acetic Acid 20% Premium Grade"
      "ACETIC ACID 20% FLV10594 PREMIUM GRD 15L").1 = true ∧
    check_product_match "Acetic Acid 20%" "Zinc Gluconate Powder FG" =
      (false, 0.1, "PRODUCT MISMATCH: Specification is for 'Acetic Acid 20%' but certificate is for 'Zinc Gluconate Powder FG'") := by
  decide

/-- Helper: the unit-reconciliation branch is skipped when either unit is
empty or the canonical forms agree. -/
theorem unitReconcile_skip (base : Detail) (su cu : String) (v : ℚ)
    (h : su = "" ∨ cu = "" ∨ normalize_unit su = normalize_unit cu) :
    unitReconcile base su cu v = Sum.inr v := by
  unfold unitReconcile
  rcases h with h | h | h <;> simp [h]

/-- Helper: the min-limit section falls through when the parsed minimum
does not exceed the value. -/
theorem minCheck_none (base : Detail) (nm mn : String) (a m : ℚ) (q2 : String)
    (hmn : mn ≠ "") (hp : parse_value mn = some (some m, q2)) (h : ¬ a < m) :
    minCheck base nm mn a = none := by
  unfold minCheck
  rw [if_neg hmn, hp]
  simp [h]

/-- Helper: no max limit means the max section falls through. -/
theorem maxCheck_empty (base : Detail) (nm : String) (a : ℚ) :
    maxCheck base nm "" a = none := by
  unfold maxCheck
  simp

/-- Helper: no max limit means the less-than section falls through. -/
theorem ltCheck_emptyMax (base : Detail) (q : String) (a : ℚ) :
    ltCheck base "" q a = none := by
  unfold ltCheck
  simp

/-- C8: a `less_than` certificate value against a spec with only a min
limit, compatible (or absent) units, and value not strictly below the
minimum falls through every branch to the default PASS with no reason —
the combination is left unhandled, exactly as the spec notes. -/
theorem claim_C8 (spec_param cert_param : Param) (v m : ℚ) (qm : String)
    (hv : parse_value cert_param.value = some (some v, "less_than"))
    (hmin : spec_param.min_limit ≠ "") (hmax : spec_param.max_limit = "")
    (hm : parse_value spec_param.min_limit = some (some m, qm))
    (hunit : spec_param.unit = "" ∨ cert_param.unit = "" ∨
      normalize_unit spec_param.unit = normalize_unit cert_param.unit)
    (hge : ¬ v < m) :
    ∃ d, compare_single_param spec_param cert_param = some d ∧
      d.status = "PASS" ∧ d.reason = "" := by
  have h0 : ∀ b : Detail, unitReconcile b spec_param.unit cert_param.unit v = Sum.inr v :=
    fun b => unitReconcile_skip b _ _ v hunit
  have h1 : ∀ (b : Detail) (nm : String), minCheck b nm spec_param.min_limit v = none :=
    fun b nm => minCheck_none b nm _ v m qm hmin hm hge
  simp only [compare_single_param, hv]
  rw [if_neg (by decide : ¬ ("less_than" : String) = "qualitative"),
      if_neg (by decide : ¬ ("less_than" : String) = "not_detected"),
      if_neg (fun hc => hmin hc.1)]
  simp only [hmax, h0, h1, maxCheck_empty, ltCheck_emptyMax]
  exact ⟨_, rfl, rfl, rfl⟩

theorem claim_C8_witness :
    ∃ d, compare_single_param { name := "X", min_limit := "5" }
        { name := "X", value := "<7" } = some d ∧ d.status = "PASS" ∧ d.reason = "" :=
  claim_C8 { name := "X", min_limit := "5" } { name := "X", value := "<7" } 7 5 ""
    (by decide) (by decide) (by decide) (by decide) (by decide) (by decide)

/-- C1: the overall verdict of the decision step (used by
`compare_documents` once all gates pass) is FAIL iff some detail is FAIL;
otherwise REVIEW iff some detail is MISSING or REVIEW; otherwise PASS;
and in the FAIL case the reason is the count plus the comma-joined names
of exactly the failing parameters. -/
theorem claim_C1 (details : List Detail) :
    ((overallVerdict details).1 = "FAIL" ↔ ∃ d ∈ details, d.status = "FAIL") ∧
    ((¬ ∃ d ∈ details, d.status = "FAIL") →
      (((overallVerdict details).1 = "REVIEW") ↔
        ∃ d ∈ details, d.status = "MISSING" ∨ d.status = "REVIEW")) ∧
    ((¬ ∃ d ∈ details, d.status = "FAIL" ∨ d.status = "MISSING" ∨ d.status = "REVIEW") →
      (overallVerdict details).1 = "PASS") ∧
    ((∃ d ∈ details, d.status = "FAIL") →
      (overallVerdict details).2 = Nat.repr (countStatus "FAIL" details) ++
        " parameter(s) failed: " ++
        strJoin ", " ((details.filter (fun d => d.status == "FAIL")).map
          (fun d => d.parameter))) := by
  by_cases hf : ∃ d ∈ details, d.status = "FAIL"
  · have hpos : 0 < countStatus "FAIL" details := (countStatus_pos _ _).mpr hf
    simp only [overallVerdict]
    rw [if_pos hpos]
    refine ⟨⟨fun _ => hf, fun _ => rfl⟩, fun hc => absurd hf hc, fun hc => ?_, fun _ => rfl⟩
    obtain ⟨d, hd, hds⟩ := hf
    exact absurd ⟨d, hd, Or.inl hds⟩ hc
  · have hnpos : ¬ 0 < countStatus "FAIL" details :=
      fun hp => hf ((countStatus_pos _ _).mp hp)
    simp only [overallVerdict]
    rw [if_neg hnpos]
    by_cases hm : ∃ d ∈ details, d.status = "MISSING"
    · have hmp : 0 < countStatus "MISSING" details := (countStatus_pos _ _).mpr hm
      rw [if_pos hmp]
      obtain ⟨d, hd, hds⟩ := hm
      refine ⟨⟨fun h => absurd h (by simp), fun h => absurd h hf⟩,
        fun _ => ⟨fun _ => ⟨d, hd, Or.inl hds⟩, fun _ => rfl⟩,
        fun hc => absurd ⟨d, hd, Or.inr (Or.inl hds)⟩ hc,
        fun h => absurd h hf⟩
    · have hnm : ¬ 0 < countStatus "MISSING" details :=
        fun hp => hm ((countStatus_pos _ _).mp hp)
      rw [if_neg hnm]
      by_cases hr : ∃ d ∈ details, d.status = "REVIEW"
      · have hrp : 0 < countStatus "REVIEW" details := (countStatus_pos _ _).mpr hr
        rw [if_pos hrp]
        obtain ⟨d, hd, hds⟩ := hr
        refine ⟨⟨fun h => absurd h (by simp), fun h => absurd h hf⟩,
          fun _ => ⟨fun _ => ⟨d, hd, Or.inr hds⟩, fun _ => rfl⟩,
          fun hc => absurd ⟨d, hd, Or.inr (Or.inr hds)⟩ hc,
          fun h => absurd h hf⟩
      · have hnr : ¬ 0 < countStatus "REVIEW" details :=
          fun hp => hr ((countStatus_pos _ _).mp hp)
        rw [if_neg hnr]
        refine ⟨⟨fun h => absurd h (by simp), fun h => absurd h hf⟩,
          fun _ => ⟨fun h => absurd h (by simp), fun hex => ?_⟩,
          fun _ => rfl, fun h => absurd h hf⟩
        obtain ⟨d, hd, hds⟩ := hex
        rcases hds with hds | hds
        · exact absurd ⟨d, hd, hds⟩ hm
        · exact absurd ⟨d, hd, hds⟩ hr

theorem claim_C1_witness :
    (overallVerdict [{ parameter := "pH", status := "FAIL" }]).1 = "FAIL" :=
  (claim_C1 [{ parameter := "pH", status := "FAIL" }]).1.mpr (by decide)

/-- C2: the counting step's `integrity_check` is true iff the locally
computed `passed+failed+review+missing` equals `total_params_in_spec`,
and a false value always appends an explicit INTEGRITY WARNING substring
to the overall reason. -/
theorem claim_C2 (details : List Detail) (total : Nat) (ct sp cp bn ac : String) :
    ((finalizeResult details total ct sp cp bn ac).integrity_check = true ↔
      (finalizeResult details total ct sp cp bn ac).parameters_passed +
        (finalizeResult details total ct sp cp bn ac).parameters_failed +
        (finalizeResult details total ct sp cp bn ac).parameters_review +
        (finalizeResult details total ct sp cp bn ac).parameters_missing =
        (finalizeResult details total ct sp cp bn ac).total_params_in_spec) ∧
    ((finalizeResult details total ct sp cp bn ac).integrity_check = false →
      ∃ pre suf, (finalizeResult details total ct sp cp bn ac).reason =
        pre ++ ("INTEGRITY WARNING" ++ suf)) := by
  constructor
  · simp only [finalizeResult]
    rw [beq_iff_eq]
    constructor <;> intro h <;> omega
  · intro h
    simp only [finalizeResult] at h ⊢
    rw [Bool.eq_false_iff] at h
    rw [if_neg (by simpa using h)]
    exact ⟨_, _, rfl⟩

theorem claim_C2_witness :
    (finalizeResult [] 1 "" "" "" "" "").integrity_check = false ∧
    ∃ pre suf, (finalizeResult [] 1 "" "" "" "" "").reason =
      pre ++ ("INTEGRITY WARNING" ++ suf) :=
  ⟨by decide, (claim_C2 [] 1 "" "" "" "" "").2 (by decide)⟩

/-- C3 counterexample: a specification with one parameter and a COC
certificate with no parameters but a non-empty compliance statement
nevertheless yields overall FAIL (not REVIEW) when the product-identity
gate fires first. -/
theorem claim_C3_counterexample :
    (compare_documents { product_name := "Acetic Acid 20%", parameters := [{ name := "pH" }] }
      { product_name := "Zinc Gluconate Powder FG", parameters := [],
        compliance_statement := "Complies with the specification" }
      "COC" none none).map CompareResult.status = some "FAIL" ∧
    (some "FAIL" ≠ some "REVIEW") := by decide

/-- C3 (amended): PROVIDED the document-type gate and the product-identity
pre-check pass, a COCA/COC certificate with no parameters but a non-empty
compliance statement against a non-empty specification yields terminal
REVIEW with every spec parameter MISSING, `parameters_missing = n` and
`integrity_check = true`. -/
theorem claim_C3 (spec_data : SpecData) (cert_data : CertData) (cert_type : String)
    (classification : Option String) (ai_result : Option AIResult)
    (hdoc : ¬ docTypeGateFails classification)
    (hct : cert_type = "COCA" ∨ cert_type = "COC")
    (hcp : cert_data.parameters = [])
    (hcomp : cert_data.compliance_statement ≠ "")
    (hsp : spec_data.parameters ≠ [])
    (hpm : (check_product_match spec_data.product_name cert_data.product_name).1 = true) :
    ∃ r, compare_documents spec_data cert_data cert_type classification ai_result = some r ∧
      r.status = "REVIEW" ∧
      r.details.length = spec_data.parameters.length ∧
      (∀ d ∈ r.details, d.status = "MISSING") ∧
      r.parameters_missing = spec_data.parameters.length ∧
      r.integrity_check = true := by
  simp only [compare_documents]
  rw [if_neg hdoc]
  rw [if_neg (by simp [hpm])]
  rw [if_neg hsp]
  rw [if_pos ⟨hct, hcp⟩]
  rw [if_pos hcomp]
  refine ⟨_, rfl, rfl, ?_, ?_, rfl, rfl⟩
  · exact List.length_map _ _
  · intro d hd
    obtain ⟨p, hp, rfl⟩ := List.mem_map.mp hd
    rfl

def c3SpecW : SpecData :=
  { product_name := "Acetic Acid 20%",
    parameters := [{ name := "p1" }, { name := "p2" }, { name := "p3" },
                   { name := "p4" }, { name := "p5" }] }

def c3CertW : CertData :=
  { product_name := "Acetic Acid 20%", parameters := [],
    compliance_statement := "This product complies with the specification" }

theorem claim_C3_witness :
    ∃ r, compare_documents c3SpecW c3CertW "COC" none none = some r ∧
      r.status = "REVIEW" ∧
      r.details.length = c3SpecW.parameters.length ∧
      (∀ d ∈ r.details, d.status = "MISSING") ∧
      r.parameters_missing = c3SpecW.parameters.length ∧
      r.integrity_check = true :=
  claim_C3 c3SpecW c3CertW "COC" none none (by decide) (by decide) (by decide)
    (by decide) (by decide) (by decide)

/-- Helper: `unitReconcile` only short-circuits with a REVIEW detail that
keeps the base's parameter name. -/
theorem unitReconcile_inl (base : Detail) (su cu : String) (v : ℚ) (d : Detail)
    (h : unitReconcile base su cu v = Sum.inl d) :
    d.status = "REVIEW" ∧ d.parameter = base.parameter := by
  unfold unitReconcile at h
  repeat' split at h
  all_goals cases h
  all_goals exact ⟨rfl, rfl⟩

/-- Helper: an early return from the min section is REVIEW or FAIL and
keeps the base's parameter name. -/
theorem minCheck_some (base : Detail) (nm mn : String) (a : ℚ) (d : Detail)
    (h : minCheck base nm mn a = some d) :
    (d.status = "REVIEW" ∨ d.status = "FAIL") ∧ d.parameter = base.parameter := by
  unfold minCheck at h
  repeat' split at h
  all_goals cases h
  all_goals first
    | exact ⟨Or.inl rfl, rfl⟩
    | exact ⟨Or.inr rfl, rfl⟩

/-- Helper: an early return from the max section is REVIEW or FAIL and
keeps the base's parameter name. -/
theorem maxCheck_some (base : Detail) (nm mx : String) (a : ℚ) (d : Detail)
    (h : maxCheck base nm mx a = some d) :
    (d.status = "REVIEW" ∨ d.status = "FAIL") ∧ d.parameter = base.parameter := by
  unfold maxCheck at h
  repeat' split at h
  all_goals cases h
  all_goals first
    | exact ⟨Or.inl rfl, rfl⟩
    | exact ⟨Or.inr rfl, rfl⟩

/-- Helper: an early return from the less-than section is REVIEW or PASS
and keeps the base's parameter name. -/
theorem ltCheck_some (base : Detail) (mx q : String) (a : ℚ) (d : Detail)
    (h : ltCheck base mx q a = some d) :
    (d.status = "REVIEW" ∨ d.status = "PASS") ∧ d.parameter = base.parameter := by
  unfold ltCheck at h
  repeat' split at h
  all_goals cases h
  all_goals first
    | exact ⟨Or.inl rfl, rfl⟩
    | exact ⟨Or.inr rfl, rfl⟩

/-- Helper: every detail produced by `_compare_single_param` has status
PASS, FAIL or REVIEW and carries the stripped spec parameter name. -/
theorem compare_single_param_fields (sp cp : Param) (d : Detail)
    (h : compare_single_param sp cp = some d) :
    (d.status = "PASS" ∨ d.status = "FAIL" ∨ d.status = "REVIEW") ∧
    d.parameter = pyStrip sp.name := by
  simp only [compare_single_param] at h
  repeat' split at h
  all_goals try (cases h)
  all_goals try exact ⟨Or.inl rfl, rfl⟩
  all_goals try exact ⟨Or.inr (Or.inr rfl), rfl⟩
  all_goals rename_i heq
  all_goals first
    | (obtain ⟨h1, h2⟩ := unitReconcile_inl _ _ _ _ _ heq
       exact ⟨Or.inr (Or.inr h1), h2⟩)
    | (obtain ⟨h1, h2⟩ := minCheck_some _ _ _ _ _ heq
       exact ⟨h1.elim (fun e => Or.inr (Or.inr e)) (fun e => Or.inr (Or.inl e)), h2⟩)
    | (obtain ⟨h1, h2⟩ := maxCheck_some _ _ _ _ _ heq
       exact ⟨h1.elim (fun e => Or.inr (Or.inr e)) (fun e => Or.inr (Or.inl e)), h2⟩)
    | (obtain ⟨h1, h2⟩ := ltCheck_some _ _ _ _ _ heq
       exact ⟨h1.elim (fun e => Or.inr (Or.inr e)) Or.inl, h2⟩)

/-- Helper: the legacy matcher, when it returns, yields exactly one detail
per specification parameter, in specification order, carrying the
stripped spec names, and only the statuses PASS/FAIL/REVIEW. -/
theorem match_parameters_legacy_spec (spec_params cert_params : List Param) (ds : List Detail)
    (h : match_parameters_legacy spec_params cert_params = some ds) :
    ds.length = spec_params.length ∧
    ds.map Detail.parameter = spec_params.map (fun p => pyStrip p.name) ∧
    ∀ d ∈ ds, d.status = "PASS" ∨ d.status = "FAIL" ∨ d.status = "REVIEW" := by
  induction spec_params generalizing ds with
  | nil =>
    simp only [match_parameters_legacy] at h
    cases h
    exact ⟨rfl, rfl, fun d hd => absurd hd (List.not_mem_nil d)⟩
  | cons p rest ih =>
    simp only [match_parameters_legacy] at h
    split at h
    · rename_i d0 ds0 hone hrest
      cases h
      obtain ⟨hlen, hmap, hst⟩ := ih ds0 hrest
      have hd0 : (d0.status = "PASS" ∨ d0.status = "FAIL" ∨ d0.status = "REVIEW") ∧
          d0.parameter = pyStrip p.name := by
        split at hone
        · cases hone
          exact ⟨Or.inr (Or.inr rfl), rfl⟩
        · exact compare_single_param_fields _ _ _ hone
      refine ⟨by simp [hlen], by simp [hmap, hd0.2], ?_⟩
      intro d hd
      rcases List.mem_cons.mp hd with rfl | hd
      · exact hd0.1
      · exact hst d hd
    · cases h

/-- Helper: the status of a remapped legacy detail. -/
theorem remapLegacyDetail_status (x : Detail) :
    (remapLegacyDetail x).status =
      if x.status = "REVIEW" ∧ strContains x.reason "Missing parameter" then "MISSING"
      else x.status := by
  unfold remapLegacyDetail
  split
  · dsimp only
    split <;> rfl
  · dsimp only
    split <;> rfl

/-- Helper: details with statuses among the four canonical ones are
counted exhaustively by the four status counters. -/
theorem countStatus_four (ds : List Detail)
    (h : ∀ d ∈ ds, d.status = "PASS" ∨ d.status = "FAIL" ∨ d.status = "MISSING" ∨
      d.status = "REVIEW") :
    countStatus "PASS" ds + countStatus "FAIL" ds + countStatus "MISSING" ds +
      countStatus "REVIEW" ds = ds.length := by
  induction ds with
  | nil => rfl
  | cons d ds ih =>
    have hd := h d (List.mem_cons_self d ds)
    have hrest := ih (fun x hx => h x (List.mem_cons_of_mem d hx))
    unfold countStatus at *
    simp only [List.countP_cons, List.length_cons]
    rcases hd with h1 | h1 | h1 | h1 <;> simp [h1] <;> omega

/-- Helper: a finalized result whose details are as many as the spec's
parameters and all carry canonical statuses has a true integrity check. -/
theorem fallback_integrity (ds : List Detail) (total : Nat) (ct sp cp bn ac : String)
    (hlen : ds.length = total)
    (hst : ∀ d ∈ ds, d.status = "PASS" ∨ d.status = "FAIL" ∨ d.status = "MISSING" ∨
      d.status = "REVIEW") :
    (finalizeResult ds total ct sp cp bn ac).details.length =
      (finalizeResult ds total ct sp cp bn ac).total_params_in_spec ∧
    (finalizeResult ds total ct sp cp bn ac).integrity_check = true := by
  have hc := countStatus_four ds hst
  constructor
  · simpa [finalizeResult] using hlen
  · simp only [finalizeResult]
    exact beq_iff_eq.mpr (hc.trans hlen)

/-- Helper: statuses after the legacy remap stay among the four canonical
statuses. -/
theorem remapped_statuses (ds : List Detail)
    (h : ∀ d ∈ ds, d.status = "PASS" ∨ d.status = "FAIL" ∨ d.status = "REVIEW") :
    ∀ d ∈ ds.map remapLegacyDetail,
      d.status = "PASS" ∨ d.status = "FAIL" ∨ d.status = "MISSING" ∨ d.status = "REVIEW" := by
  intro d hd
  obtain ⟨x, hx, rfl⟩ := List.mem_map.mp hd
  rw [remapLegacyDetail_status]
  split
  · exact Or.inr (Or.inr (Or.inl rfl))
  · rcases h x hx with h1 | h1 | h1
    · exact Or.inl h1
    · exact Or.inr (Or.inl h1)
    · exact Or.inr (Or.inr (Or.inr h1))

/-- C9: the deterministic fallback matcher returns exactly one detail per
specification parameter in specification order; consequently, on the
fallback path (aligner failed or returned no parameters) the number of
details equals `total_params_in_spec` and `integrity_check` is true. -/
theorem claim_C9 :
    (∀ (spec_params cert_params : List Param) (ds : List Detail),
      match_parameters_legacy spec_params cert_params = some ds →
      ds.length = spec_params.length ∧
      ds.map Detail.parameter = spec_params.map (fun p => pyStrip p.name)) ∧
    (∀ (spec_data : SpecData) (cert_data : CertData) (cert_type : String)
      (classification : Option String) (ai_result : Option AIResult),
      ¬ docTypeGateFails classification →
      (check_product_match spec_data.product_name cert_data.product_name).1 = true →
      spec_data.parameters ≠ [] →
      ¬ ((cert_type = "COCA" ∨ cert_type = "COC") ∧ cert_data.parameters = []) →
      ¬ (cert_type = "COA" ∧ cert_data.parameters = []) →
      aiHasParams ai_result = false →
      match_parameters_legacy spec_data.parameters cert_data.parameters ≠ none →
      ∃ r, compare_documents spec_data cert_data cert_type classification ai_result = some r ∧
        r.details.length = r.total_params_in_spec ∧
        r.integrity_check = true) := by
  constructor
  · intro spec_params cert_params ds h
    exact ⟨(match_parameters_legacy_spec _ _ _ h).1, (match_parameters_legacy_spec _ _ _ h).2.1⟩
  · intro spec_data cert_data cert_type classification ai_result hdoc hpm hsp hcoc hcoa hai hleg
    rcases e : match_parameters_legacy spec_data.parameters cert_data.parameters
      with _ | ds
    · exact absurd e hleg
    obtain ⟨hlen, _, hst⟩ := match_parameters_legacy_spec _ _ _ e
    have hfb := fallback_integrity (ds.map remapLegacyDetail) spec_data.parameters.length
      cert_type spec_data.product_name cert_data.product_name cert_data.batch_number
      cert_data.compliance_statement (by simpa using hlen) (remapped_statuses ds hst)
    simp only [compare_documents]
    rw [if_neg hdoc]
    rw [if_neg (by simp [hpm])]
    rw [if_neg hsp]
    rw [if_neg hcoc]
    rw [if_neg hcoa]
    rcases ai_result with _ | r
    · rw [e]
      exact ⟨_, rfl, hfb.1, hfb.2⟩
    · have hre : r.parameters.isEmpty = true := by
        simpa [aiHasParams] using hai
      simp only []
      rw [if_pos hre, e]
      exact ⟨_, rfl, hfb.1, hfb.2⟩

theorem claim_C9_witness :
    (([missingDetail { name := "pH" } "pH"] : List Detail).length =
        ([{ name := "pH" }] : List Param).length ∧
      ([missingDetail { name := "pH" } "pH"] : List Detail).map Detail.parameter =
        ([{ name := "pH" }] : List Param).map (fun p => pyStrip p.name)) ∧
    (∃ r, compare_documents
        { product_name := "Acetic Acid 20%",
          parameters := [{ name := "pH", min_limit := "7", max_limit := "8" }] }
        { product_name := "Acetic Acid 20%",
          parameters := [{ name := "pH", value := "7.5" }] }
        "COA" none none = some r ∧
      r.details.length = r.total_params_in_spec ∧
      r.integrity_check = true) :=
  ⟨claim_C9.1 [{ name := "pH" }] [] [missingDetail { name := "pH" } "pH"] (by decide),
   claim_C9.2
     { product_name := "Acetic Acid 20%",
       parameters := [{ name := "pH", min_limit := "7", max_limit := "8" }] }
     { product_name := "Acetic Acid 20%",
       parameters := [{ name := "pH", value := "7.5" }] }
     "COA" none none (by decide) (by decide) (by decide) (by decide) (by decide)
     (by decide) (by decide)⟩

end IXOM
